import Mathlib

/-
Shallow embedding of the predubuddy academic-tracking dashboard
(src/utils/calculations.py and src/data_manager.py).

Conventions of the embedding:
* Python numbers are modelled as rationals (ℚ); the arithmetic in the
  calculation module is exact over the values the program handles.
* A pandas DataFrame is modelled as a list of records carrying the schema
  of §3 of the spec.  For the carry-marks table the presence of the
  `final_contribution` column varies (a frame built from a list of dicts has
  the column exactly when some dict carries the key, while the empty frame
  returned by `get_carry_marks_df` lists it explicitly), so the table type
  records that presence as a flag alongside the rows; each row stores the
  value as an `Option` (`none` models a missing key / NaN cell, and pandas
  `.sum()` skips NaN, i.e. counts it as 0).
* Python list indices are modelled as ℤ (arbitrary precision ints).
* `datetime.now()` is passed explicitly, as the current instant expressed in
  days since the proleptic-Gregorian epoch (ordinal day count, with a
  fractional part for the time of day).
-/

/-- A course record: `{code, name, carry_weight, exam_weight}` (spec §3,
rows of `st.session_state.courses`). -/
structure Course where
  code : String
  name : String
  carry_weight : ℚ
  exam_weight : ℚ
deriving DecidableEq

/-- A carry-mark record (spec §3, rows of `st.session_state.carry_marks`).
`final_contribution` is `none` when the underlying dict lacks the key
(a NaN cell once the list is turned into a DataFrame). -/
structure CarryMark where
  course_code : String
  element_type : String
  element_name : String
  earned : ℚ
  max_possible : ℚ
  weight_percentage : ℚ
  final_contribution : Option ℚ
  date_added : String
deriving DecidableEq

/-- The carry-marks DataFrame: its rows plus whether the frame carries the
`final_contribution` column (filtering rows preserves the columns, so the
flag is a property of the whole table). -/
structure CarryMarksDF where
  rows : List CarryMark
  hasFinalContributionCol : Bool
deriving DecidableEq

/-- `pd.DataFrame(list_of_dicts)`: the columns are the union of the dicts'
keys, so the `final_contribution` column is present exactly when some row
carries the field. -/
def dfOfRows (rows : List CarryMark) : CarryMarksDF :=
  { rows := rows, hasFinalContributionCol := rows.any (fun cm => cm.final_contribution.isSome) }

/-- An assignment record (spec §3, rows of `st.session_state.assignments`). -/
structure Assignment where
  title : String
  course_code : String
  type : String
  due_date : String
  status : String
  description : String
deriving DecidableEq

/-- The assignments DataFrame.  Besides the base schema it records the two
in-place column mutations `get_weekly_workload` performs on the frame it is
given: `due_date_as_datetime` is true once the `due_date` column has been
converted from strings to datetimes, and `week` holds the added `week`
column (one period number per row) when present. -/
structure AssignmentsDF where
  rows : List Assignment
  due_date_as_datetime : Bool
  week : Option (List ℤ)
deriving DecidableEq

/-- A final-exam record; the Record Store only ever reads its
`course_code` (spec §3 treats it as opaque otherwise). -/
structure FinalExamEntry where
  course_code : String
deriving DecidableEq

/-- The session state: the four collections owned by the Record Store
(`st.session_state` in src/data_manager.py). -/
structure SessionState where
  courses : List Course
  carry_marks : List CarryMark
  final_exams : List FinalExamEntry
  assignments : List Assignment
deriving DecidableEq

/-- calculate_carry_percentage (src/utils/calculations.py lines 4-19). -/
def calculate_carry_percentage (course_code : String) (carry_marks_df : CarryMarksDF) : ℚ :=
  if carry_marks_df.rows.isEmpty then 0
  else
    let course_marks := carry_marks_df.rows.filter (fun cm => cm.course_code == course_code)
    if course_marks.isEmpty then 0
    else
      let total_earned := (course_marks.map (fun cm => cm.earned)).sum
      let total_max := (course_marks.map (fun cm => cm.max_possible)).sum
      if total_max = 0 then 0
      else (total_earned / total_max) * 100

/-- calculate_final_exam_requirement (src/utils/calculations.py lines 21-30). -/
def calculate_final_exam_requirement (target_grade carry_percentage carry_weight exam_weight : ℚ) : ℚ :=
  if exam_weight = 0 then 0
  else
    let carry_contribution := (carry_percentage / 100) * (carry_weight / 100) * 100
    let required_exam_contribution := target_grade - carry_contribution
    let required_exam_percentage := (required_exam_contribution / exam_weight) * 100
    max 0 required_exam_percentage

/-- calculate_current_grade (src/utils/calculations.py lines 32-50).
`courses_df[courses_df['code'] == course_code]` keeps the rows whose code
matches; `course_info.iloc[0]` is the first such row.  The column test
`'final_contribution' in course_marks.columns` reads the (whole-table)
column set of the frame; a sum over the column skips NaN cells. -/
def calculate_current_grade (course_code : String) (carry_marks_df : CarryMarksDF)
    (courses_df : List Course) : ℚ :=
  match courses_df.filter (fun c => c.code == course_code) with
  | [] => 0
  | course :: _ =>
    let course_marks := carry_marks_df.rows.filter (fun cm => cm.course_code == course_code)
    if course_marks.isEmpty then 0
    else if carry_marks_df.hasFinalContributionCol then
      (course_marks.map (fun cm => cm.final_contribution.getD 0)).sum
    else
      let carry_weight := course.carry_weight
      let carry_percentage := calculate_carry_percentage course_code carry_marks_df
      (carry_percentage / 100) * carry_weight

/-- get_grade_letter (src/utils/calculations.py lines 52-73). -/
def get_grade_letter (percentage : ℚ) : String :=
  if percentage ≥ 90 then "A+"
  else if percentage ≥ 85 then "A"
  else if percentage ≥ 80 then "A-"
  else if percentage ≥ 75 then "B+"
  else if percentage ≥ 70 then "B"
  else if percentage ≥ 65 then "B-"
  else if percentage ≥ 60 then "C+"
  else if percentage ≥ 55 then "C"
  else if percentage ≥ 50 then "C-"
  else "F"

/-- calculate_completion_rate (src/utils/calculations.py lines 100-108). -/
def calculate_completion_rate (assignments_df : AssignmentsDF) : ℚ :=
  if assignments_df.rows.isEmpty then 0
  else
    let completed := (assignments_df.rows.filter (fun a => a.status == "completed")).length
    let total := assignments_df.rows.length
    if total > 0 then ((completed : ℚ) / (total : ℚ)) * 100 else 0

/-- Gregorian leap year, as the datetime module computes it. -/
def isLeap (year : ℕ) : Bool :=
  year % 4 == 0 && (year % 100 != 0 || year % 400 == 0)

/-- Number of days in a month of the Gregorian calendar. -/
def daysInMonth (year month : ℕ) : ℕ :=
  if month = 2 then (if isLeap year then 29 else 28)
  else if month = 4 ∨ month = 6 ∨ month = 9 ∨ month = 11 then 30
  else 31

/-- Days in the year strictly before the given month. -/
def daysBeforeMonth (year month : ℕ) : ℕ :=
  let base := [0, 0, 31, 59, 90, 120, 151, 181, 212, 243, 273, 304, 334].getD month 0
  base + (if 2 < month ∧ isLeap year = true then 1 else 0)

/-- A calendar date as `datetime.strptime` produces it (time fields zero). -/
structure PDate where
  year : ℕ
  month : ℕ
  day : ℕ
deriving DecidableEq

/-- Proleptic-Gregorian ordinal day number (`date.toordinal`):
0001-01-01 is day 1. -/
def toordinal (d : PDate) : ℤ :=
  let y : ℤ := (d.year : ℤ) - 1
  365 * y + y / 4 - y / 100 + y / 400 + (daysBeforeMonth d.year d.month : ℤ) + (d.day : ℤ)

/-- Numeric value of a list of decimal digit characters. -/
def digitsVal (cs : List Char) : ℕ :=
  cs.foldl (fun a c => a * 10 + (c.toNat - 48)) 0

/-- Model of `datetime.strptime(s, "%Y-%m-%d")` returning `none` where Python
raises `ValueError`.  CPython matches `%Y` against exactly four digits, `%m`
and `%d` against one or two digits, requires the whole string to be consumed,
and then `datetime(...)` validates year ≥ 1, 1 ≤ month ≤ 12 and
1 ≤ day ≤ days-in-month.  (Digits here are ASCII decimal digits.) -/
def parseYMD (s : String) : Option PDate :=
  match s.data.splitOn '-' with
  | [ys, ms, ds] =>
    if ys.length == 4 && ys.all Char.isDigit
        && (ms.length == 1 || ms.length == 2) && ms.all Char.isDigit
        && (ds.length == 1 || ds.length == 2) && ds.all Char.isDigit then
      let y := digitsVal ys
      let m := digitsVal ms
      let d := digitsVal ds
      if 1 ≤ y ∧ 1 ≤ m ∧ m ≤ 12 ∧ 1 ≤ d ∧ d ≤ daysInMonth y m then
        some { year := y, month := m, day := d }
      else none
    else none
  | _ => none

/-- calculate_days_until_due (src/utils/calculations.py lines 75-83).
`now` is `datetime.now()` expressed in (possibly fractional) ordinal days;
the parsed due date sits at midnight, and `timedelta.days` is the floor of
the difference measured in days.  The bare `except` turns any parse failure
into 0. -/
def calculate_days_until_due (due_date_str : String) (now : ℚ) : ℤ :=
  match parseYMD due_date_str with
  | none => 0
  | some due_date => ⌊(toordinal due_date : ℚ) - now⌋

/-- Weekly period number of an ordinal day under pandas `to_period('W')`
(weeks run Monday through Sunday; ordinal 1, 0001-01-01, is a Monday). -/
def weekOfOrdinal (ord : ℤ) : ℤ :=
  (ord - 1) / 7

/-- Insert into a sorted list of week numbers. -/
def insertSorted (x : ℤ) : List ℤ → List ℤ
  | [] => [x]
  | y :: ys => if x ≤ y then x :: y :: ys else y :: insertSorted x ys

/-- Ascending sort of week numbers (`groupby` emits its keys sorted). -/
def sortInts (l : List ℤ) : List ℤ :=
  l.foldr insertSorted []

/-- One row of the weekly summary produced by get_weekly_workload. -/
structure WeeklyRow where
  week : ℤ
  total_assignments : ℕ
  pending_assignments : ℕ
deriving DecidableEq

/-- get_weekly_workload (src/utils/calculations.py lines 85-98).  On a
nonempty frame, line 90 converts the `due_date` column to datetimes in place
and line 91 writes a new `week` column into the frame — both mutate the
DataFrame the caller passed in; the function then groups by week and, per
week, counts the rows and the rows with status `pending` (keys sorted
ascending).  `pd.to_datetime` raises if a date fails to parse, modelled as
`none` (due dates follow the data model's "YYYY-MM-DD" format).  On an
empty frame it returns an empty summary without touching the input.  The
result pairs the returned summary with the state of the caller's frame
after the call. -/
def get_weekly_workload (assignments_df : AssignmentsDF) :
    Option (List WeeklyRow × AssignmentsDF) :=
  if assignments_df.rows.isEmpty then some ([], assignments_df)
  else
    match (assignments_df.rows.mapM (fun a => parseYMD a.due_date)) with
    | none => none
    | some dates =>
      let weeks := dates.map (fun d => weekOfOrdinal (toordinal d))
      let mutated := { assignments_df with due_date_as_datetime := true, week := some weeks }
      let pairs := assignments_df.rows.zip weeks
      let keys := sortInts weeks.dedup
      let weekly_summary := keys.map (fun w =>
        { week := w,
          total_assignments := (pairs.filter (fun p => p.2 == w)).length,
          pending_assignments :=
            (pairs.filter (fun p => p.2 == w && p.1.status == "pending")).length })
      some (weekly_summary, mutated)

/-- get_default_courses (src/data_manager.py lines 5-15). -/
def get_default_courses : List Course :=
  [ { code := "BSD 1323", name := "Storytelling & Data Visualization", carry_weight := 60, exam_weight := 40 },
    { code := "BSD 2143", name := "Operational Research", carry_weight := 60, exam_weight := 40 },
    { code := "BUM 2413", name := "Applied Statistics", carry_weight := 60, exam_weight := 40 },
    { code := "BUM 2123", name := "Applied Calculus", carry_weight := 60, exam_weight := 40 },
    { code := "BCU 1023", name := "Programming Technique", carry_weight := 60, exam_weight := 40 },
    { code := "ULS 1312", name := "Spanish A1", carry_weight := 60, exam_weight := 40 },
    { code := "UHE 3032", name := "Introduction to Human Behaviour", carry_weight := 60, exam_weight := 40 } ]

/-- initialize_session_state (src/data_manager.py lines 17-32) on a fresh
session: default courses, the other collections empty. -/
def initialize_session_state : SessionState :=
  { courses := get_default_courses, carry_marks := [], final_exams := [], assignments := [] }

/-- get_carry_marks_df (src/data_manager.py lines 38-42): a nonempty list is
truthy and becomes `pd.DataFrame(list)` (columns = union of the dicts'
keys); an empty list yields the explicitly-columned empty frame, whose
column list includes `final_contribution`. -/
def get_carry_marks_df (carry_marks : List CarryMark) : CarryMarksDF :=
  match carry_marks with
  | [] => { rows := [], hasFinalContributionCol := true }
  | _ :: _ => dfOfRows carry_marks

/-- add_course (src/data_manager.py lines 50-52). -/
def add_course (course_data : Course) (s : SessionState) : SessionState :=
  { s with courses := s.courses ++ [course_data] }

/-- update_course (src/data_manager.py lines 54-57). -/
def update_course (index : ℤ) (course_data : Course) (s : SessionState) : SessionState :=
  if 0 ≤ index ∧ index < (s.courses.length : ℤ) then
    { s with courses := s.courses.set index.toNat course_data }
  else s

/-- delete_course (src/data_manager.py lines 59-67): in bounds, it reads the
course's code, filters the matching carry marks, assignments and final
exams out of their collections, then deletes the course; out of bounds it
does nothing. -/
def delete_course (index : ℤ) (s : SessionState) : SessionState :=
  if h : 0 ≤ index ∧ index < (s.courses.length : ℤ) then
    let course_code := (s.courses.get ⟨index.toNat, by omega⟩).code
    { courses := s.courses.eraseIdx index.toNat,
      carry_marks := s.carry_marks.filter (fun cm => cm.course_code != course_code),
      final_exams := s.final_exams.filter (fun fe => fe.course_code != course_code),
      assignments := s.assignments.filter (fun a => a.course_code != course_code) }
  else s

/-- add_carry_mark (src/data_manager.py lines 69-72): stamps `date_added`
with today's date (passed explicitly here) before appending. -/
def add_carry_mark (today : String) (carry_data : CarryMark) (s : SessionState) : SessionState :=
  { s with carry_marks := s.carry_marks ++ [{ carry_data with date_added := today }] }

/-- add_assignment (src/data_manager.py lines 74-76). -/
def add_assignment (assignment_data : Assignment) (s : SessionState) : SessionState :=
  { s with assignments := s.assignments ++ [assignment_data] }

/-- update_assignment_status (src/data_manager.py lines 78-81). -/
def update_assignment_status (index : ℤ) (new_status : String) (s : SessionState) : SessionState :=
  if h : 0 ≤ index ∧ index < (s.assignments.length : ℤ) then
    let a := s.assignments.get ⟨index.toNat, by omega⟩
    { s with assignments := s.assignments.set index.toNat { a with status := new_status } }
  else s

/-- delete_assignment (src/data_manager.py lines 83-86). -/
def delete_assignment (index : ℤ) (s : SessionState) : SessionState :=
  if 0 ≤ index ∧ index < (s.assignments.length : ℤ) then
    { s with assignments := s.assignments.eraseIdx index.toNat }
  else s

/-- One mutation of the Record Store (the operations of
src/data_manager.py, with the dates the store stamps left arbitrary). -/
inductive StoreStep : SessionState → SessionState → Prop
  | add_course (c : Course) (s : SessionState) : StoreStep s (add_course c s)
  | update_course (i : ℤ) (c : Course) (s : SessionState) : StoreStep s (update_course i c s)
  | delete_course (i : ℤ) (s : SessionState) : StoreStep s (delete_course i s)
  | add_carry_mark (today : String) (cm : CarryMark) (s : SessionState) :
      StoreStep s (add_carry_mark today cm s)
  | add_assignment (a : Assignment) (s : SessionState) : StoreStep s (add_assignment a s)
  | update_assignment_status (i : ℤ) (st : String) (s : SessionState) :
      StoreStep s (update_assignment_status i st s)
  | delete_assignment (i : ℤ) (s : SessionState) : StoreStep s (delete_assignment i s)

/-- States reachable from the fresh session state through Record Store
operations. -/
def Reachable (s : SessionState) : Prop :=
  Relation.ReflTransGen StoreStep initialize_session_state s

/-- Modelled from the spec: the UI pages that build carry-mark records (the
callers of `add_carry_mark`) are not under src/; per the data model (§3)
every CarryMarkEntry carries a caller-computed `final_contribution` value,
so a record conforming to the data model has the field present. -/
def CarryMarkEntryConformant (cm : CarryMark) : Prop :=
  cm.final_contribution.isSome = true

/-- C2: `calculate_final_exam_requirement` returns 0 when `exam_weight = 0`,
otherwise `max 0 ((target_grade - carry_percentage/100 * carry_weight/100 * 100) / exam_weight * 100)`;
the result is never negative for any inputs, and the spec's worked example
(target 70, carry 80, weights 60/40) yields 55. -/
theorem c2_final_exam_requirement (target_grade carry_percentage carry_weight exam_weight : ℚ) :
    (exam_weight = 0 →
      calculate_final_exam_requirement target_grade carry_percentage carry_weight exam_weight = 0)
  ∧ (exam_weight ≠ 0 →
      calculate_final_exam_requirement target_grade carry_percentage carry_weight exam_weight =
        max 0 ((target_grade - carry_percentage / 100 * (carry_weight / 100) * 100) /
          exam_weight * 100))
  ∧ 0 ≤ calculate_final_exam_requirement target_grade carry_percentage carry_weight exam_weight
  ∧ calculate_final_exam_requirement 70 80 60 40 = 55 := by
  refine ⟨fun h => by simp [calculate_final_exam_requirement, h],
    fun h => by simp [calculate_final_exam_requirement, h],
    ?_, by norm_num [calculate_final_exam_requirement]⟩
  unfold calculate_final_exam_requirement
  split_ifs
  · exact le_refl 0
  · exact le_max_left 0 _

/-- Witness for C2 at concrete inputs: the zero-exam-weight branch at
(70, 80, 60, 0) and the general formula at the spec's worked example. -/
theorem c2_witness :
    calculate_final_exam_requirement 70 80 60 0 = 0
  ∧ calculate_final_exam_requirement 70 80 60 40 =
      max 0 ((70 - 80 / 100 * ((60 : ℚ) / 100) * 100) / 40 * 100) :=
  ⟨(c2_final_exam_requirement 70 80 60 0).1 rfl,
   (c2_final_exam_requirement 70 80 60 40).2.1 (by norm_num)⟩

/-- C3: `calculate_carry_percentage` returns 0 for an empty collection, 0
when no entry matches the course code, and 0 when the matching entries' sum
of `max_possible` is 0; otherwise it returns
`100 * (sum of earned) / (sum of max_possible)` over the matching entries,
with no weight adjustment. -/
theorem c3_carry_percentage (course_code : String) (df : CarryMarksDF) :
    (df.rows = [] → calculate_carry_percentage course_code df = 0)
  ∧ (df.rows.filter (fun cm => cm.course_code == course_code) = [] →
      calculate_carry_percentage course_code df = 0)
  ∧ (((df.rows.filter (fun cm => cm.course_code == course_code)).map
        (fun cm => cm.max_possible)).sum = 0 →
      calculate_carry_percentage course_code df = 0)
  ∧ (((df.rows.filter (fun cm => cm.course_code == course_code)).map
        (fun cm => cm.max_possible)).sum ≠ 0 →
      calculate_carry_percentage course_code df =
        100 * ((df.rows.filter (fun cm => cm.course_code == course_code)).map
            (fun cm => cm.earned)).sum /
          ((df.rows.filter (fun cm => cm.course_code == course_code)).map
            (fun cm => cm.max_possible)).sum) := by
  refine ⟨fun h => by simp [calculate_carry_percentage, h],
    fun h => by simp [calculate_carry_percentage, h],
    fun h => by simp [calculate_carry_percentage, h],
    fun h => ?_⟩
  have hf : df.rows.filter (fun cm => cm.course_code == course_code) ≠ [] := by
    intro hf; rw [hf] at h; simp at h
  have hr : df.rows ≠ [] := by
    intro hr; rw [hr] at h; simp at h
  simp only [calculate_carry_percentage, List.isEmpty_iff, hf, hr, h, if_false]
  rw [div_mul_eq_mul_div, mul_comm]

/-- Witness for C3 at the spec's worked example: two entries (8/10, 18/20)
for course X give `100 * (8+18) / (10+20)`, i.e. `(8+18)/(10+20)*100`. -/
theorem c3_witness :
    calculate_carry_percentage "X"
      { rows := [{ course_code := "X", element_type := "quiz", element_name := "q1",
                   earned := 8, max_possible := 10, weight_percentage := 0,
                   final_contribution := none, date_added := "" },
                 { course_code := "X", element_type := "quiz", element_name := "q2",
                   earned := 18, max_possible := 20, weight_percentage := 0,
                   final_contribution := none, date_added := "" }],
        hasFinalContributionCol := false } =
      (8 + 18) / ((10 : ℚ) + 20) * 100 := by
  have h := (c3_carry_percentage "X"
    { rows := [{ course_code := "X", element_type := "quiz", element_name := "q1",
                 earned := 8, max_possible := 10, weight_percentage := 0,
                 final_contribution := none, date_added := "" },
               { course_code := "X", element_type := "quiz", element_name := "q2",
                 earned := 18, max_possible := 20, weight_percentage := 0,
                 final_contribution := none, date_added := "" }],
      hasFinalContributionCol := false }).2.2.2
  rw [h (by norm_num [List.filter])]
  norm_num [List.filter]

set_option maxHeartbeats 1600000 in
/-- C4: `get_grade_letter` implements the descending closed-boundary table
with no overlaps or gaps — for every rational input the returned letter is
characterised exactly by the row bounds — and each boundary value maps to
the grade of its own row, 49.999 maps to F, and 100 maps to A+. -/
theorem c4_grade_letter :
    (∀ p : ℚ,
      (get_grade_letter p = "A+" ↔ 90 ≤ p)
    ∧ (get_grade_letter p = "A" ↔ 85 ≤ p ∧ p < 90)
    ∧ (get_grade_letter p = "A-" ↔ 80 ≤ p ∧ p < 85)
    ∧ (get_grade_letter p = "B+" ↔ 75 ≤ p ∧ p < 80)
    ∧ (get_grade_letter p = "B" ↔ 70 ≤ p ∧ p < 75)
    ∧ (get_grade_letter p = "B-" ↔ 65 ≤ p ∧ p < 70)
    ∧ (get_grade_letter p = "C+" ↔ 60 ≤ p ∧ p < 65)
    ∧ (get_grade_letter p = "C" ↔ 55 ≤ p ∧ p < 60)
    ∧ (get_grade_letter p = "C-" ↔ 50 ≤ p ∧ p < 55)
    ∧ (get_grade_letter p = "F" ↔ p < 50))
  ∧ get_grade_letter 90 = "A+" ∧ get_grade_letter 85 = "A" ∧ get_grade_letter 80 = "A-"
  ∧ get_grade_letter 75 = "B+" ∧ get_grade_letter 70 = "B" ∧ get_grade_letter 65 = "B-"
  ∧ get_grade_letter 60 = "C+" ∧ get_grade_letter 55 = "C" ∧ get_grade_letter 50 = "C-"
  ∧ get_grade_letter 49.999 = "F" ∧ get_grade_letter 100 = "A+" := by
  refine ⟨fun p => ?_, by norm_num [get_grade_letter], by norm_num [get_grade_letter],
    by norm_num [get_grade_letter], by norm_num [get_grade_letter],
    by norm_num [get_grade_letter], by norm_num [get_grade_letter],
    by norm_num [get_grade_letter], by norm_num [get_grade_letter],
    by norm_num [get_grade_letter], by norm_num [get_grade_letter],
    by norm_num [get_grade_letter]⟩
  unfold get_grade_letter
  split_ifs with h1 h2 h3 h4 h5 h6 h7 h8 h9 <;>
    refine ⟨?_, ?_, ?_, ?_, ?_, ?_, ?_, ?_, ?_, ?_⟩ <;>
    constructor <;> intro h <;>
    first
      | rfl
      | exact absurd h (by decide)
      | exact ⟨by linarith, by linarith⟩
      | linarith

/-- C1: `calculate_current_grade` returns 0 when no course matches the code
and 0 when no carry-mark entry matches; otherwise, when the filtered frame
carries the `final_contribution` column (column presence is a property of
the whole filtered frame, so once any entry for the course carries the
field the column exists and the sum path is taken even if other entries
lack it) it returns the sum of `final_contribution` over the matching
entries; otherwise it returns
`calculate_carry_percentage * carry_weight / 100` for the matched course. -/
theorem c1_current_grade (course_code : String) (df : CarryMarksDF) (courses : List Course) :
    (courses.filter (fun c => c.code == course_code) = [] →
      calculate_current_grade course_code df courses = 0)
  ∧ (df.rows.filter (fun cm => cm.course_code == course_code) = [] →
      calculate_current_grade course_code df courses = 0)
  ∧ (∀ c rest, courses.filter (fun c => c.code == course_code) = c :: rest →
      df.rows.filter (fun cm => cm.course_code == course_code) ≠ [] →
      (df.hasFinalContributionCol = true →
        calculate_current_grade course_code df courses =
          ((df.rows.filter (fun cm => cm.course_code == course_code)).map
            (fun cm => cm.final_contribution.getD 0)).sum)
    ∧ (df.hasFinalContributionCol = false →
        calculate_current_grade course_code df courses =
          calculate_carry_percentage course_code df * c.carry_weight / 100))
  ∧ (∀ rows, df = dfOfRows rows →
      (∃ cm ∈ rows.filter (fun cm => cm.course_code == course_code),
        cm.final_contribution.isSome) →
      courses.filter (fun c => c.code == course_code) ≠ [] →
      calculate_current_grade course_code df courses =
        ((rows.filter (fun cm => cm.course_code == course_code)).map
          (fun cm => cm.final_contribution.getD 0)).sum) := by
  refine ⟨fun h => by simp [calculate_current_grade, h],
    fun h => ?_, fun c rest hc hne => ?_, fun rows hdf hex hcs => ?_⟩
  · rcases hcs : courses.filter (fun c => c.code == course_code) with _ | ⟨c, rest⟩
    · simp [calculate_current_grade, hcs]
    · simp [calculate_current_grade, hcs, h]
  · constructor
    · intro hcol
      simp [calculate_current_grade, hc, List.isEmpty_iff, hne, hcol]
    · intro hcol
      simp only [calculate_current_grade, hc, List.isEmpty_iff, hne, hcol,
        if_false, Bool.false_eq_true, if_neg hne]
      rw [div_mul_eq_mul_div, mul_comm]
  · subst hdf
    have hcol : (dfOfRows rows).hasFinalContributionCol = true := by
      rcases hex with ⟨cm, hmem, hsome⟩
      have hmem' := (List.mem_filter.mp hmem).1
      simp only [dfOfRows, List.any_eq_true]
      exact ⟨cm, hmem', hsome⟩
    have hne : (dfOfRows rows).rows.filter (fun cm => cm.course_code == course_code) ≠ [] := by
      rcases hex with ⟨cm, hmem, _⟩
      intro hnil
      rw [show (dfOfRows rows).rows = rows from rfl] at hnil
      rw [hnil] at hmem
      exact absurd hmem (List.not_mem_nil cm)
    rcases hcs' : courses.filter (fun c => c.code == course_code) with _ | ⟨c, rest⟩
    · exact absurd hcs' hcs
    · rcases hex with ⟨cm, hmem, hsome⟩
      have hmr := (List.mem_filter.mp hmem).1
      have hmc : cm.course_code = course_code := by
        have hb := (List.mem_filter.mp hmem).2
        exact eq_of_beq hb
      simp [calculate_current_grade, dfOfRows, hcs', List.isEmpty_iff, hne, hcol]
      rw [if_neg (fun hall => hall cm hmr hmc), if_pos ⟨cm, hmr, hsome⟩]

/-- Concrete data for the C1 witness: a single course X with weights 60/40. -/
def c1_courses : List Course :=
  [{ code := "X", name := "Xn", carry_weight := 60, exam_weight := 40 }]

/-- A carry-marks frame for course X without the `final_contribution` column. -/
def c1_df_fb : CarryMarksDF :=
  { rows := [{ course_code := "X", element_type := "quiz", element_name := "q1",
               earned := 8, max_possible := 10, weight_percentage := 0,
               final_contribution := none, date_added := "" }],
    hasFinalContributionCol := false }

/-- A carry-marks frame built from one dict that carries `final_contribution`. -/
def c1_df_sum : CarryMarksDF :=
  dfOfRows [{ course_code := "X", element_type := "quiz", element_name := "q1",
              earned := 8, max_possible := 10, weight_percentage := 50,
              final_contribution := some 12, date_added := "" }]

/-- Witness for C1 at concrete inputs: the fallback path on a frame without
the column, the contribution-sum path on a frame with it, and the
missing-course case. -/
theorem c1_witness :
    calculate_current_grade "X" c1_df_fb c1_courses =
      calculate_carry_percentage "X" c1_df_fb * 60 / 100
  ∧ calculate_current_grade "X" c1_df_sum c1_courses = 12
  ∧ calculate_current_grade "Y" c1_df_fb c1_courses = 0 := by
  refine ⟨?_, ?_, ?_⟩
  · exact ((c1_current_grade "X" c1_df_fb c1_courses).2.2.1
      { code := "X", name := "Xn", carry_weight := 60, exam_weight := 40 } []
      (by simp [c1_courses]) (by simp [c1_df_fb])).2 rfl
  · have h := (c1_current_grade "X" c1_df_sum c1_courses).2.2.2
      [{ course_code := "X", element_type := "quiz", element_name := "q1",
         earned := 8, max_possible := 10, weight_percentage := 50,
         final_contribution := some 12, date_added := "" }] rfl
      ⟨{ course_code := "X", element_type := "quiz", element_name := "q1",
         earned := 8, max_possible := 10, weight_percentage := 50,
         final_contribution := some 12, date_added := "" }, by simp, rfl⟩
      (by simp [c1_courses])
    rw [h]
    norm_num [List.filter]
  · exact (c1_current_grade "Y" c1_df_fb c1_courses).1 (by simp [c1_courses])

/-- C9: `calculate_days_until_due` returns the integer day delta from now to
the parsed "YYYY-MM-DD" date — the floor of (due-date midnight − now) in
days, negative when the due date lies before now — and returns 0, raising
nothing, for every string that fails to parse in that format. -/
theorem c9_days_until_due (due_date_str : String) (now : ℚ) :
    (parseYMD due_date_str = none → calculate_days_until_due due_date_str now = 0)
  ∧ (∀ d, parseYMD due_date_str = some d →
      calculate_days_until_due due_date_str now = ⌊(toordinal d : ℚ) - now⌋
    ∧ ((toordinal d : ℚ) < now → calculate_days_until_due due_date_str now < 0)) := by
  refine ⟨fun h => by simp [calculate_days_until_due, h], fun d hd => ?_⟩
  have he : calculate_days_until_due due_date_str now = ⌊(toordinal d : ℚ) - now⌋ := by
    simp [calculate_days_until_due, hd]
  refine ⟨he, fun hlt => ?_⟩
  rw [he]
  have hneg : (toordinal d : ℚ) - now < 0 := by linarith
  exact Int.floor_lt.mpr (by exact_mod_cast hneg)

/-- Witness for C9 at concrete inputs: an unparseable month yields 0, and a
parseable date one-and-a-half days ahead of now yields the floored delta 1. -/
theorem c9_witness :
    calculate_days_until_due "2023-13-05" 738949 = 0
  ∧ calculate_days_until_due "2024-03-05" (738948 + 1/2) = 1 := by
  refine ⟨(c9_days_until_due "2023-13-05" 738949).1 (by decide), ?_⟩
  have h := ((c9_days_until_due "2024-03-05" (738948 + 1/2)).2
    { year := 2024, month := 3, day := 5 } (by decide)).1
  rw [h, show toordinal { year := 2024, month := 3, day := 5 } = 738950 from by decide]
  rw [Int.floor_eq_iff]
  norm_num

/-- C10: when the carry-marks table handed to `calculate_current_grade` comes
from `get_carry_marks_df` over data-model-conformant records, the
`final_contribution` column is present even when the collection is empty,
so for every course found in `courses` with at least one matching entry the
function returns the contribution sum — the fallback branch is unreachable
at that interface. -/
theorem c10_interface (marks : List CarryMark) (courses : List Course) (code : String)
    (hwf : ∀ cm ∈ marks, CarryMarkEntryConformant cm) :
    (get_carry_marks_df marks).hasFinalContributionCol = true
  ∧ (courses.filter (fun c => c.code == code) ≠ [] →
      marks.filter (fun cm => cm.course_code == code) ≠ [] →
      calculate_current_grade code (get_carry_marks_df marks) courses =
        ((marks.filter (fun cm => cm.course_code == code)).map
          (fun cm => cm.final_contribution.getD 0)).sum) := by
  have hcol : (get_carry_marks_df marks).hasFinalContributionCol = true := by
    cases marks with
    | nil => rfl
    | cons m ms =>
      simp only [get_carry_marks_df, dfOfRows, List.any_eq_true]
      exact ⟨m, List.mem_cons_self m ms, hwf m (List.mem_cons_self m ms)⟩
  have hrows : (get_carry_marks_df marks).rows = marks := by
    cases marks with
    | nil => rfl
    | cons m ms => rfl
  refine ⟨hcol, fun hcs hne => ?_⟩
  rcases hc : courses.filter (fun c => c.code == code) with _ | ⟨c, rest⟩
  · exact absurd hc hcs
  · have hne' : (get_carry_marks_df marks).rows.filter (fun cm => cm.course_code == code) ≠ [] := by
      rw [hrows]; exact hne
    simp [calculate_current_grade, hc, List.isEmpty_iff, hne', hcol, hrows]
    obtain ⟨cm, hcm⟩ := List.exists_mem_of_ne_nil _ hne
    have hmr := (List.mem_filter.mp hcm).1
    have hmc : cm.course_code = code := eq_of_beq (List.mem_filter.mp hcm).2
    intro hall
    exact absurd hmc (hall cm hmr)

/-- Concrete conformant carry-mark collection for the C10 witness. -/
def c10_marks : List CarryMark :=
  [{ course_code := "X", element_type := "quiz", element_name := "q1",
     earned := 8, max_possible := 10, weight_percentage := 50,
     final_contribution := some 12, date_added := "" }]

/-- Witness for C10: through `get_carry_marks_df` over a conformant record,
course X's current grade is the contribution sum 12. -/
theorem c10_witness :
    calculate_current_grade "X" (get_carry_marks_df c10_marks)
      [{ code := "X", name := "Xn", carry_weight := 60, exam_weight := 40 }] = 12 := by
  have h := (c10_interface c10_marks
    [{ code := "X", name := "Xn", carry_weight := 60, exam_weight := 40 }] "X"
    (by simp [c10_marks, CarryMarkEntryConformant])).2
    (by simp) (by simp [c10_marks])
  rw [h]
  norm_num [c10_marks, List.filter]

/-- Filtering preserves the multiplicity of any element the filter keeps. -/
theorem count_filter_of_kept {α : Type} [DecidableEq α] (p : α → Bool) (l : List α) (a : α)
    (h : p a = true) : (l.filter p).count a = l.count a := by
  induction l with
  | nil => rfl
  | cons x xs ih =>
    by_cases hx : p x = true
    · rw [List.filter_cons_of_pos hx, List.count_cons, List.count_cons, ih]
    · have hax : ¬ ((x == a) = true) := fun he => hx (by rw [eq_of_beq he]; exact h)
      rw [List.filter_cons_of_neg hx, List.count_cons, if_neg hax, add_zero, ih]

/-- C6: for every in-range index, `delete_course` removes exactly the
carry-mark entries, assignments and final-exam entries whose `course_code`
equals the code of the course at that index — every surviving record does
not match, the survivors form an in-order sublist, and every non-matching
record keeps its multiplicity — and then removes that course from the
courses collection. -/
theorem c6_delete_course (s : SessionState) (i : ℤ) (c : Course)
    (h0 : 0 ≤ i) (h1 : i < (s.courses.length : ℤ))
    (hc : s.courses.get? i.toNat = some c) :
    (delete_course i s).courses = s.courses.eraseIdx i.toNat
  ∧ ((delete_course i s).carry_marks.Sublist s.carry_marks
    ∧ (∀ cm ∈ (delete_course i s).carry_marks, cm.course_code ≠ c.code)
    ∧ (∀ cm : CarryMark, cm.course_code ≠ c.code →
        (delete_course i s).carry_marks.count cm = s.carry_marks.count cm))
  ∧ ((delete_course i s).assignments.Sublist s.assignments
    ∧ (∀ a ∈ (delete_course i s).assignments, a.course_code ≠ c.code)
    ∧ (∀ a : Assignment, a.course_code ≠ c.code →
        (delete_course i s).assignments.count a = s.assignments.count a))
  ∧ ((delete_course i s).final_exams.Sublist s.final_exams
    ∧ (∀ fe ∈ (delete_course i s).final_exams, fe.course_code ≠ c.code)
    ∧ (∀ fe : FinalExamEntry, fe.course_code ≠ c.code →
        (delete_course i s).final_exams.count fe = s.final_exams.count fe)) := by
  have hlt : i.toNat < s.courses.length := by omega
  have hgc : s.courses.get ⟨i.toNat, hlt⟩ = c := by
    rw [List.get?_eq_get hlt] at hc
    exact Option.some.inj hc
  have key : delete_course i s =
      { courses := s.courses.eraseIdx i.toNat,
        carry_marks := s.carry_marks.filter (fun cm => cm.course_code != c.code),
        final_exams := s.final_exams.filter (fun fe => fe.course_code != c.code),
        assignments := s.assignments.filter (fun a => a.course_code != c.code) } := by
    unfold delete_course
    rw [dif_pos ⟨h0, h1⟩, hgc]
  rw [key]
  refine ⟨rfl, ⟨List.filter_sublist _, fun cm hm => ?_, fun cm hne => ?_⟩,
    ⟨List.filter_sublist _, fun a hm => ?_, fun a hne => ?_⟩,
    ⟨List.filter_sublist _, fun fe hm => ?_, fun fe hne => ?_⟩⟩
  · simpa using (List.mem_filter.mp hm).2
  · exact count_filter_of_kept _ _ _ (bne_iff_ne.mpr hne)
  · simpa using (List.mem_filter.mp hm).2
  · exact count_filter_of_kept _ _ _ (bne_iff_ne.mpr hne)
  · simpa using (List.mem_filter.mp hm).2
  · exact count_filter_of_kept _ _ _ (bne_iff_ne.mpr hne)

/-- Witness for C6: deleting course 0 of the default session removes its
carry mark and keeps the other course's records. -/
theorem c6_witness :
    (delete_course 0
      { courses := [{ code := "X", name := "Xn", carry_weight := 60, exam_weight := 40 },
                    { code := "Y", name := "Yn", carry_weight := 50, exam_weight := 50 }],
        carry_marks := [{ course_code := "X", element_type := "quiz", element_name := "q1",
                          earned := 8, max_possible := 10, weight_percentage := 0,
                          final_contribution := none, date_added := "" }],
        final_exams := [{ course_code := "X" }, { course_code := "Y" }],
        assignments := [] }).courses =
      ([{ code := "X", name := "Xn", carry_weight := 60, exam_weight := 40 },
        { code := "Y", name := "Yn", carry_weight := 50, exam_weight := 50 }] :
          List Course).eraseIdx 0
  ∧ ∀ fe ∈ (delete_course 0
      { courses := [{ code := "X", name := "Xn", carry_weight := 60, exam_weight := 40 },
                    { code := "Y", name := "Yn", carry_weight := 50, exam_weight := 50 }],
        carry_marks := [{ course_code := "X", element_type := "quiz", element_name := "q1",
                          earned := 8, max_possible := 10, weight_percentage := 0,
                          final_contribution := none, date_added := "" }],
        final_exams := [{ course_code := "X" }, { course_code := "Y" }],
        assignments := [] }).final_exams,
      fe.course_code ≠ "X" := by
  have h := c6_delete_course
    { courses := [{ code := "X", name := "Xn", carry_weight := 60, exam_weight := 40 },
                  { code := "Y", name := "Yn", carry_weight := 50, exam_weight := 50 }],
      carry_marks := [{ course_code := "X", element_type := "quiz", element_name := "q1",
                        earned := 8, max_possible := 10, weight_percentage := 0,
                        final_contribution := none, date_added := "" }],
      final_exams := [{ course_code := "X" }, { course_code := "Y" }],
      assignments := [] } 0
    { code := "X", name := "Xn", carry_weight := 60, exam_weight := 40 }
    (by decide) (by decide) rfl
  exact ⟨h.1, h.2.2.2.2.1⟩

/-- C7: for every index outside the valid range of its target collection,
each indexed mutation (`update_course`, `delete_course`,
`update_assignment_status`, `delete_assignment`) is a silent no-op: it
returns the state unchanged, all four collections included. -/
theorem c7_out_of_range (s : SessionState) (i : ℤ) (cd : Course) (ns : String) :
    (¬ (0 ≤ i ∧ i < (s.courses.length : ℤ)) →
        update_course i cd s = s ∧ delete_course i s = s)
  ∧ (¬ (0 ≤ i ∧ i < (s.assignments.length : ℤ)) →
        update_assignment_status i ns s = s ∧ delete_assignment i s = s) := by
  constructor
  · intro h
    constructor
    · unfold update_course
      rw [if_neg h]
    · unfold delete_course
      rw [dif_neg h]
  · intro h
    constructor
    · unfold update_assignment_status
      rw [dif_neg h]
    · unfold delete_assignment
      rw [if_neg h]

/-- Witness for C7: index 99 is out of range for the seven default courses
and index -1 for the empty assignments list; all four mutations leave the
fresh session state unchanged. -/
theorem c7_witness :
    update_course 99 { code := "Z", name := "Zn", carry_weight := 60, exam_weight := 40 }
      initialize_session_state = initialize_session_state
  ∧ delete_course 99 initialize_session_state = initialize_session_state
  ∧ update_assignment_status (-1) "completed" initialize_session_state = initialize_session_state
  ∧ delete_assignment (-1) initialize_session_state = initialize_session_state := by
  have h1 := (c7_out_of_range initialize_session_state 99
    { code := "Z", name := "Zn", carry_weight := 60, exam_weight := 40 } "completed").1
    (by decide)
  have h2 := (c7_out_of_range initialize_session_state (-1)
    { code := "Z", name := "Zn", carry_weight := 60, exam_weight := 40 } "completed").2
    (by decide)
  exact ⟨h1.1, h1.2, h2.1, h2.2⟩

/-- Counterexample for C8: from the fresh session state, one `add_course`
call with the already-present code "BSD 1323" reaches a state whose course
codes are not pairwise distinct — the store never checks uniqueness. -/
theorem c8_counterexample :
    Reachable (add_course
      { code := "BSD 1323", name := "Duplicate", carry_weight := 60, exam_weight := 40 }
      initialize_session_state)
  ∧ ¬ (((add_course
      { code := "BSD 1323", name := "Duplicate", carry_weight := 60, exam_weight := 40 }
      initialize_session_state).courses.map (fun c => c.code)).Nodup) := by
  constructor
  · exact Relation.ReflTransGen.single (StoreStep.add_course _ _)
  · decide

/-- C8 amended: course codes are pairwise distinct in the initial session
state, and `add_course` preserves that distinctness exactly when the added
course's code is fresh; the store itself enforces nothing, so duplicate
codes are reachable (see the counterexample). -/
theorem c8_amended :
    ((initialize_session_state.courses.map (fun c => c.code)).Nodup)
  ∧ (∀ (s : SessionState) (c : Course),
      (s.courses.map (fun x => x.code)).Nodup →
      c.code ∉ s.courses.map (fun x => x.code) →
      (((add_course c s).courses.map (fun x => x.code)).Nodup)) := by
  constructor
  · decide
  · intro s c hnd hnotin
    simp only [add_course, List.map_append, List.map_cons, List.map_nil]
    rw [List.nodup_append]
    refine ⟨hnd, List.nodup_singleton _, fun a ha hb => ?_⟩
    rw [List.mem_singleton] at hb
    exact hnotin (hb ▸ ha)

/-- Witness for C8 amended: adding a fresh code to the fresh session keeps
the codes pairwise distinct. -/
theorem c8_witness :
    (((add_course { code := "ZZZ 9999", name := "New", carry_weight := 60, exam_weight := 40 }
        initialize_session_state).courses.map (fun x => x.code)).Nodup) :=
  c8_amended.2 initialize_session_state
    { code := "ZZZ 9999", name := "New", carry_weight := 60, exam_weight := 40 }
    (by decide) (by decide)

/-- A one-row assignments frame (due Monday 2024-03-04, pending) used to
exhibit the in-place mutation `get_weekly_workload` performs. -/
def c5_df0 : AssignmentsDF :=
  { rows := [{ title := "T", course_code := "C", type := "hw", due_date := "2024-03-04",
               status := "pending", description := "" }],
    due_date_as_datetime := false,
    week := none }

/-- Counterexample for C5: `get_weekly_workload` is not side-effect free —
on this one-row frame it returns the weekly summary but hands back the
caller's frame with the `due_date` column converted in place and a new
`week` column added, a frame different from the one passed in. -/
theorem c5_counterexample :
    get_weekly_workload c5_df0 =
      some ([{ week := 105564, total_assignments := 1, pending_assignments := 1 }],
        { rows := c5_df0.rows, due_date_as_datetime := true, week := some [105564] })
  ∧ ({ rows := c5_df0.rows, due_date_as_datetime := true, week := some [105564] } :
      AssignmentsDF) ≠ c5_df0 := by
  constructor
  · decide
  · decide

/-- C5 amended: the Grade Calculator functions other than
`get_weekly_workload` are pure functions of their arguments, but
`get_weekly_workload` mutates the assignments frame passed in: on every
nonempty frame it returns the frame with `due_date` converted to datetimes
in place and a `week` column written in (the rows themselves are
preserved), so a frame that did not already carry a `week` column is
changed by the call. -/
theorem c5_weekly_workload_mutates (df : AssignmentsDF) (hne : df.rows ≠ [])
    (summary : List WeeklyRow) (df2 : AssignmentsDF)
    (h : get_weekly_workload df = some (summary, df2)) :
    df2.rows = df.rows
  ∧ df2.due_date_as_datetime = true
  ∧ df2.week.isSome = true
  ∧ (df.week = none → df2 ≠ df) := by
  unfold get_weekly_workload at h
  rw [if_neg (by simpa [List.isEmpty_iff] using hne)] at h
  rcases hm : df.rows.mapM (fun a => parseYMD a.due_date) with _ | dates
  · rw [hm] at h
    exact absurd h (by simp)
  · rw [hm] at h
    simp only [Option.some.injEq, Prod.mk.injEq] at h
    obtain ⟨hs, hd⟩ := h
    rw [← hd]
    refine ⟨rfl, rfl, rfl, fun hw heq => ?_⟩
    have hwk := congrArg AssignmentsDF.week heq
    rw [hw] at hwk
    simp at hwk

/-- Witness for C5 amended, at the concrete one-row frame: the frame handed
back differs from the frame passed in. -/
theorem c5_witness :
    ({ rows := c5_df0.rows, due_date_as_datetime := true, week := some [105564] } :
      AssignmentsDF) ≠ c5_df0 :=
  (c5_weekly_workload_mutates c5_df0 (by decide)
    [{ week := 105564, total_assignments := 1, pending_assignments := 1 }]
    { rows := c5_df0.rows, due_date_as_datetime := true, week := some [105564] }
    (by decide)).2.2.2 rfl
